import Mathlib

/-
Verification of the SharePoint MCP server (src/server.py) against its
natural-language specification.

The embedding below is shallow: the Python functions of src/server.py are
translated into total Lean functions.  Timestamps are modelled as `Int`
seconds (datetime arithmetic in the source only ever adds whole seconds).
JSON values are modelled by an inductive `Json` type; a Python `dict` is an
association list of string keys.  Exceptions raised by a Python function
become the `Except` error component of its Lean counterpart; the outcome of
the one awaited network operation (the HTTP POST inside `_rpc`) is passed in
explicitly as a `DeliveryOutcome`, so that `_rpc` stays a function of its
inputs.
-/

namespace SharePointMCP

/-- JSON values as they appear in the JSON-RPC envelopes handled by
`_rpc`.  Objects keep their fields as an association list; the server only
ever builds and inspects dict-shaped bodies. -/
inductive Json where
  | null : Json
  | bool (b : Bool) : Json
  | num (n : Int) : Json
  | str (s : String) : Json
  | arr (xs : List Json) : Json
  | obj (fields : List (String × Json)) : Json

/-- Key lookup on a dict-shaped JSON value: Python's `data[k]` /
`k in data` for a `dict`.  Non-object values have no keys. -/
def Json.lookup : Json → String → Option Json
  | .obj fields, k => List.lookup k fields
  | _, _ => none

/-- `auth.sharepoint_auth.SharePointContext` as consumed by src/server.py:
a bearer token, its absolute expiry instant, and the Graph API root. -/
structure SharePointContext where
  access_token : String
  token_expiry : Int
  graph_url : String
deriving Repr, DecidableEq

/-- The outcome of `await get_auth_context()` inside `sharepoint_lifespan`:
either a context, or any raised exception (carried as its message).  The
`except Exception` clause of the source catches every such fault. -/
inductive AcquireOutcome where
  | success (ctx : SharePointContext) : AcquireOutcome
  | failure (msg : String) : AcquireOutcome
deriving Repr, DecidableEq

/-- The degraded context built in the `except` branch of
`sharepoint_lifespan` (src/server.py lines 37-41):
`SharePointContext(access_token="error",
token_expiry=datetime.now() + timedelta(seconds=10),
graph_url="https://graph.microsoft.com/v1.0")`,
where `now` is the clock reading at construction time. -/
def degradedSessionContext (now : Int) : SharePointContext :=
  { access_token := "error"
    token_expiry := now + 10
    graph_url := "https://graph.microsoft.com/v1.0" }

/-- Embedding of `sharepoint_lifespan` (src/server.py lines 27-43): the
context yielded to the server, as a function of the credential-acquisition
outcome and of the clock reading `now` taken in the failure branch.  The
`try`/`except Exception` structure makes the function total: a successful
acquisition is yielded unchanged, any fault yields the degraded context. -/
def sharepoint_lifespan (outcome : AcquireOutcome) (now : Int) : SharePointContext :=
  match outcome with
  | .success context => context
  | .failure _ => degradedSessionContext now

/-- Modelled from the spec: the validity check on a session context lives in
`auth/sharepoint_auth.py`, which is not under src/.  Spec section 4.2 gives
its contract verbatim: `isValid(ctx, now) -> bool`, true iff
`ctx.token != "error" AND now < ctx.expiresAt`. -/
def isValid (ctx : SharePointContext) (now : Int) : Bool :=
  ctx.access_token != "error" && decide (now < ctx.token_expiry)

/-- The outcome, from the viewpoint of the `_rpc` helper, of the awaited
delivery sequence `client.post(RPC_URL, json=payload)`,
`resp.raise_for_status()`, `resp.json()` (src/server.py lines 79-82).  Each
step short-circuits the rest by raising, so the whole sequence has exactly
one of these outcomes; failure outcomes carry the exception message. -/
inductive DeliveryOutcome where
  | connectionRefused (msg : String) : DeliveryOutcome
  | timeout (msg : String) : DeliveryOutcome
  | httpStatusError (status : Nat) (msg : String) : DeliveryOutcome
  | malformedBody (msg : String) : DeliveryOutcome
  | response (body : Json) : DeliveryOutcome

/-- The exceptions that can escape `_rpc`: the transport exceptions
propagate uncaught (httpx.ConnectError, httpx timeout exceptions,
httpx.HTTPStatusError from `raise_for_status`, the JSON decode error from
`resp.json()`), the KeyError from `data["result"]`, and the
`ValueError(data["error"])` raised on a structured error response, carrying
the embedded error object verbatim. -/
inductive PyError where
  | connectError (msg : String) : PyError
  | timeoutError (msg : String) : PyError
  | statusError (status : Nat) (msg : String) : PyError
  | jsonDecodeError (msg : String) : PyError
  | keyError (key : String) : PyError
  | valueError (payload : Json) : PyError

/-- The numeric error code structurally carried by an exception escaping
`_rpc`, if any: only the `ValueError` wrapping a structured error object
with a numeric `code` field carries one.  Used to state the spec claims
about `BridgeError` codes. -/
def PyError.bridgeCode : PyError → Option Int
  | .valueError payload =>
    match payload.lookup "code" with
    | some (.num c) => some c
    | _ => none
  | _ => none

mutual

/-- Python repr of a JSON value, as produced by `str(e)` on the exceptions
above (a dict prints between braces as comma-separated
quoted-key/value-repr pairs).  String escaping inside reprs is not
modelled; the claims never exercise it. -/
def Json.pyRepr : Json → String
  | .null => "None"
  | .bool true => "True"
  | .bool false => "False"
  | .num n => toString n
  | .str s => "\x27" ++ s ++ "\x27"
  | .arr xs => "[" ++ pyReprList xs ++ "]"
  | .obj fields => "\x7b" ++ pyReprFields fields ++ "\x7d"

/-- Comma-separated reprs of list elements, as in a Python list repr. -/
def pyReprList : List Json → String
  | [] => ""
  | [x] => x.pyRepr
  | x :: xs => x.pyRepr ++ ", " ++ pyReprList xs

/-- Comma-separated `'key': value` pairs, as in a Python dict repr. -/
def pyReprFields : List (String × Json) → String
  | [] => ""
  | [f] => "\x27" ++ f.1 ++ "\x27: " ++ f.2.pyRepr
  | f :: fs => "\x27" ++ f.1 ++ "\x27: " ++ f.2.pyRepr ++ ", " ++ pyReprFields fs

end

/-- `str(e)` for each exception that can escape `_rpc`: transport and
decode exceptions stringify to their message, `KeyError(k)` to the repr of
the key, `ValueError(x)` to the repr of its payload. -/
def PyError.pyStr : PyError → String
  | .connectError m => m
  | .timeoutError m => m
  | .statusError _ m => m
  | .jsonDecodeError m => m
  | .keyError k => "\x27" ++ k ++ "\x27"
  | .valueError payload => payload.pyRepr

/-- The JSON-RPC 2.0 request payload built by `_rpc` (src/server.py line
78): `{"jsonrpc": "2.0", "id": 1, "method": method, "params": params}`. -/
def rpcPayload (method : String) (params : Json) : Json :=
  Json.obj [("jsonrpc", .str "2.0"), ("id", .num 1),
            ("method", .str method), ("params", params)]

/-- The tail of `_rpc` once a parsed response body is in hand
(src/server.py lines 83-85): `if "error" in data: raise ValueError(
data["error"])` then `return data["result"]`. -/
def interpretResponse (data : Json) : Except PyError Json :=
  match data.lookup "error" with
  | some err => .error (.valueError err)
  | none =>
    match data.lookup "result" with
    | some r => .ok r
    | none => .error (.keyError "result")

/-- How `_rpc` turns a delivery outcome into its result: transport failures
propagate as the corresponding exceptions, a parsed body goes through the
error/result unpacking. -/
def interpretOutcome : DeliveryOutcome → Except PyError Json
  | .connectionRefused m => .error (.connectError m)
  | .timeout m => .error (.timeoutError m)
  | .httpStatusError s m => .error (.statusError s m)
  | .malformedBody m => .error (.jsonDecodeError m)
  | .response data => interpretResponse data

/-- Embedding of `async def _rpc(method, params)` (src/server.py lines
76-85), parameterised by the behaviour `deliver` of the loopback POST to
RPC_URL: build the JSON-RPC payload, deliver it, unpack the outcome. -/
def _rpc (deliver : Json → DeliveryOutcome) (method : String) (params : Json) :
    Except PyError Json :=
  interpretOutcome (deliver (rpcPayload method params))

/-- `_rpc` with the external world made explicit: the POST is a state
transformer on a world of type `σ` (the dispatcher plus anything it
touches).  `_rpc` performs exactly one delivery and adds no state change of
its own, which this factoring makes literal. -/
def rpcStateful {σ : Type} (deliver : σ → Json → σ × DeliveryOutcome) (s : σ)
    (method : String) (params : Json) : σ × Except PyError Json :=
  let step := deliver s (rpcPayload method params)
  (step.1, interpretOutcome step.2)

/-- The value a FastAPI route handler produces: a 200 response with a JSON
body, or a raised HTTPException with a status code and a detail string. -/
inductive HttpResult where
  | ok (body : Json) : HttpResult
  | httpException (status : Nat) (detail : String) : HttpResult

/-- Embedding of `list_files_route` (src/server.py lines 87-93):
`return await _rpc("list_files", {})`, any exception becoming
`HTTPException(status_code=500, detail=str(e))`. -/
def list_files_route (deliver : Json → DeliveryOutcome) : HttpResult :=
  match _rpc deliver "list_files" (Json.obj []) with
  | .ok r => .ok r
  | .error e => .httpException 500 e.pyStr

/-- Embedding of `get_file_content_route` (src/server.py lines 95-101):
`return await _rpc("get_file_content", {"filename": filename})`, any
exception becoming `HTTPException(status_code=500, detail=str(e))`.  The
`filename` argument is required by the route signature. -/
def get_file_content_route (deliver : Json → DeliveryOutcome) (filename : String) :
    HttpResult :=
  match _rpc deliver "get_file_content" (Json.obj [("filename", .str filename)]) with
  | .ok r => .ok r
  | .error e => .httpException 500 e.pyStr

/-- Modelled from the spec: the operation handlers live in
`tools/site_tools.py`, which is not under src/.  Spec section 4.4: each
handler receives the live context and a params mapping, validates required
parameters (`filename` for the content-fetch operation; a missing parameter
is a structured error with code 400), and only then performs the repository
call.  This models the dispatcher reached by `_rpc` for the
`get_file_content` method: it answers a delivery outcome and records
whether a repository call was attempted; the repository itself is the
opaque function `repo`. -/
def dispatch_get_file_content (repo : String → Json) (payload : Json) :
    DeliveryOutcome × Bool :=
  match payload.lookup "params" with
  | some params =>
    match params.lookup "filename" with
    | some (.str fn) =>
      (.response (.obj [("jsonrpc", .str "2.0"), ("id", .num 1), ("result", repo fn)]),
       true)
    | _ =>
      (.response (.obj [("jsonrpc", .str "2.0"), ("id", .num 1),
        ("error", .obj [("code", .num 400),
                        ("message", .str "filename parameter is required")])]),
       false)
  | none =>
    (.response (.obj [("jsonrpc", .str "2.0"), ("id", .num 1),
      ("error", .obj [("code", .num 400),
                      ("message", .str "filename parameter is required")])]),
     false)

/-- Claim C2: for every outcome of credential acquisition, the lifecycle
manager yields a session context and never raises — the embedding of
`sharepoint_lifespan` is a total function on acquisition outcomes (the
source's `try`/`except Exception` catches every fault): a success is
yielded unchanged, any fault yields the degraded context, whose token is
the `"error"` sentinel. -/
theorem C2_lifespan_always_yields (ctx : SharePointContext) (msg : String) (now : Int) :
    sharepoint_lifespan (.success ctx) now = ctx ∧
    sharepoint_lifespan (.failure msg) now = degradedSessionContext now ∧
    (degradedSessionContext now).access_token = "error" :=
  ⟨rfl, rfl, rfl⟩

/-- Claim C3: `isValid(ctx, now)` is true iff `ctx.token != "error"` and
`now < ctx.expiresAt`; the two "in particular" cases (false whenever the
token is the sentinel, false once `now >= expiresAt`) are immediate
consequences of the iff. -/
theorem C3_isValid_iff (ctx : SharePointContext) (now : Int) :
    isValid ctx now = true ↔ ctx.access_token ≠ "error" ∧ now < ctx.token_expiry := by
  simp [isValid, bne_iff_ne]

/-- Claim C8: on credential failure the lifecycle manager constructs a
context whose token is exactly the sentinel `"error"` and whose expiry is
the construction instant plus 10 seconds. -/
theorem C8_degraded_shape (msg : String) (now : Int) :
    (sharepoint_lifespan (.failure msg) now).access_token = "error" ∧
    (sharepoint_lifespan (.failure msg) now).token_expiry = now + 10 :=
  ⟨rfl, rfl⟩

/-- Claim C10: the degraded context always carries the hard-coded Graph
root `"https://graph.microsoft.com/v1.0"`, for every failure message and
every clock reading, while a successfully acquired context keeps whatever
base URL the credential source configured — so the two can differ. -/
theorem C10_degraded_graph_url (msg : String) (now : Int) (ctx : SharePointContext) :
    (sharepoint_lifespan (.failure msg) now).graph_url
      = "https://graph.microsoft.com/v1.0" ∧
    (sharepoint_lifespan (.success ctx) now).graph_url = ctx.graph_url :=
  ⟨rfl, rfl⟩

/-- Claim C1: on a structured error response, `_rpc` raises
`ValueError(data["error"])`, carrying the embedded error object verbatim —
in particular its numeric `code` and its `message` fields are exactly the
ones the dispatcher produced, neither renumbered nor reworded. -/
theorem C1_error_code_preserved (deliver : Json → DeliveryOutcome)
    (method : String) (params : Json) (body : Json) (c : Int) (m : String)
    (hd : deliver (rpcPayload method params) = .response body)
    (he : body.lookup "error"
      = some (Json.obj [("code", .num c), ("message", .str m)])) :
    ∃ e : Json, _rpc deliver method params = .error (.valueError e) ∧
      e.lookup "code" = some (.num c) ∧ e.lookup "message" = some (.str m) := by
  refine ⟨Json.obj [("code", .num c), ("message", .str m)], ?_, rfl, rfl⟩
  simp [_rpc, hd, interpretOutcome, interpretResponse, he]

/-- Witness for C1: a dispatcher answering the structured error
`{code: 404, message: "not found"}` makes `_rpc` fail with a `ValueError`
whose payload still reads code 404 and message `"not found"`. -/
theorem C1_error_code_preserved_witness :
    ∃ e : Json,
      _rpc (fun _ => .response (Json.obj [("jsonrpc", .str "2.0"), ("id", .num 1),
          ("error", Json.obj [("code", .num 404), ("message", .str "not found")])]))
        "list_files" (Json.obj []) = .error (.valueError e) ∧
      e.lookup "code" = some (.num 404) ∧
      e.lookup "message" = some (.str "not found") :=
  C1_error_code_preserved _ "list_files" (Json.obj []) _ 404 "not found" rfl rfl

/-- Claim C7: on a successful dispatcher response, `_rpc` returns
`data["result"]` unchanged, and `GET /list_files` returns exactly the
array the dispatcher produced. -/
theorem C7_result_unchanged (deliver : Json → DeliveryOutcome)
    (method : String) (params : Json) (body r : Json)
    (hd : deliver (rpcPayload method params) = .response body)
    (hne : body.lookup "error" = none)
    (hr : body.lookup "result" = some r)
    (deliverL : Json → DeliveryOutcome) (bodyL rL : Json)
    (hdL : deliverL (rpcPayload "list_files" (Json.obj [])) = .response bodyL)
    (hneL : bodyL.lookup "error" = none)
    (hrL : bodyL.lookup "result" = some rL) :
    _rpc deliver method params = .ok r ∧ list_files_route deliverL = .ok rL := by
  constructor
  · simp [_rpc, hd, interpretOutcome, interpretResponse, hne, hr]
  · simp [list_files_route, _rpc, hdL, interpretOutcome, interpretResponse, hneL, hrL]

/-- Witness for C7: a dispatcher answering `{"id": 1, "result":
["a.txt"]}` makes `_rpc` return the array unchanged and the
`/list_files` route answer 200 with that same array. -/
theorem C7_result_unchanged_witness :
    _rpc (fun _ => .response (Json.obj [("id", .num 1),
        ("result", .arr [.str "a.txt"])])) "list_files" (Json.obj [])
      = .ok (.arr [.str "a.txt"]) ∧
    list_files_route (fun _ => .response (Json.obj [("id", .num 1),
        ("result", .arr [.str "a.txt"])]))
      = .ok (.arr [.str "a.txt"]) :=
  C7_result_unchanged
    (fun _ => .response (Json.obj [("id", .num 1), ("result", .arr [.str "a.txt"])]))
    "list_files" (Json.obj []) _ _ rfl rfl rfl
    (fun _ => .response (Json.obj [("id", .num 1), ("result", .arr [.str "a.txt"])]))
    _ _ rfl rfl rfl

/-- Claim C9: the bridge has no side effects of its own — its state change
is exactly the single delegated delivery — and when the dispatcher is
read-only (the underlying operations leave the world unchanged), two
identical bridge calls leave the state untouched and yield equal
results. -/
theorem C9_bridge_idempotent {σ : Type} (deliver : σ → Json → σ × DeliveryOutcome)
    (s : σ) (method : String) (params : Json)
    (hro : ∀ t q, (deliver t q).1 = t) :
    (rpcStateful deliver s method params).1 = (deliver s (rpcPayload method params)).1 ∧
    (rpcStateful deliver s method params).1 = s ∧
    rpcStateful deliver (rpcStateful deliver s method params).1 method params
      = rpcStateful deliver s method params := by
  refine ⟨rfl, ?_, ?_⟩
  · simp [rpcStateful, hro]
  · simp [rpcStateful, hro]

/-- Witness for C9: over a concrete read-only world (a counter that the
dispatcher never touches), a repeated `list_files` bridge call leaves the
state at 0 and returns the same value both times. -/
theorem C9_bridge_idempotent_witness :
    (rpcStateful (fun (t : Nat) _ => (t, .response (Json.obj [("id", .num 1),
        ("result", .arr [])]))) 0 "list_files" (Json.obj [])).1
      = ((fun (t : Nat) _ => (t, DeliveryOutcome.response (Json.obj [("id", .num 1),
          ("result", .arr [])]))) 0 (rpcPayload "list_files" (Json.obj []))).1 ∧
    (rpcStateful (fun (t : Nat) _ => (t, .response (Json.obj [("id", .num 1),
        ("result", .arr [])]))) 0 "list_files" (Json.obj [])).1 = 0 ∧
    rpcStateful (fun (t : Nat) _ => (t, .response (Json.obj [("id", .num 1),
        ("result", .arr [])])))
      (rpcStateful (fun (t : Nat) _ => (t, .response (Json.obj [("id", .num 1),
          ("result", .arr [])]))) 0 "list_files" (Json.obj [])).1
      "list_files" (Json.obj [])
      = rpcStateful (fun (t : Nat) _ => (t, .response (Json.obj [("id", .num 1),
          ("result", .arr [])]))) 0 "list_files" (Json.obj []) :=
  C9_bridge_idempotent _ 0 "list_files" (Json.obj []) (fun _ _ => rfl)

/-- Counterexample to claim C4: on a connection-refused delivery failure,
`_rpc` propagates the raw `httpx.ConnectError` — an exception carrying no
numeric bridge code at all (in particular not 502) — and the
`/list_files` route surfaces it as HTTP 500, not 502. -/
theorem C4_no_502_counterexample :
    _rpc (fun _ => .connectionRefused "All connection attempts failed")
        "list_files" (Json.obj [])
      = .error (.connectError "All connection attempts failed") ∧
    PyError.bridgeCode (.connectError "All connection attempts failed") = none ∧
    list_files_route (fun _ => .connectionRefused "All connection attempts failed")
      = .httpException 500 "All connection attempts failed" :=
  ⟨rfl, rfl, rfl⟩

/-- Claim C4 as amended: on every transport-level delivery failure
(connection refused, timeout, non-2xx status, malformed response body),
`_rpc` fails by propagating the transport exception, which carries the
failure message but no numeric bridge code; no translation to a
502-coded error happens anywhere in the code. -/
theorem C4_transport_failure_amended (deliver : Json → DeliveryOutcome)
    (method : String) (params : Json) (st : Nat) (m : String)
    (hd : deliver (rpcPayload method params) = .connectionRefused m ∨
          deliver (rpcPayload method params) = .timeout m ∨
          deliver (rpcPayload method params) = .httpStatusError st m ∨
          deliver (rpcPayload method params) = .malformedBody m) :
    ∃ e : PyError, _rpc deliver method params = .error e ∧
      e.bridgeCode = none ∧ e.pyStr = m := by
  rcases hd with h | h | h | h
  · exact ⟨.connectError m, by simp [_rpc, h, interpretOutcome], rfl, rfl⟩
  · exact ⟨.timeoutError m, by simp [_rpc, h, interpretOutcome], rfl, rfl⟩
  · exact ⟨.statusError st m, by simp [_rpc, h, interpretOutcome], rfl, rfl⟩
  · exact ⟨.jsonDecodeError m, by simp [_rpc, h, interpretOutcome], rfl, rfl⟩

/-- Witness for the amended C4: a concrete refused connection yields an
error with the original message and no bridge code. -/
theorem C4_transport_failure_amended_witness :
    ∃ e : PyError,
      _rpc (fun _ => .connectionRefused "boom") "list_files" (Json.obj [])
        = .error e ∧ e.bridgeCode = none ∧ e.pyStr = "boom" :=
  C4_transport_failure_amended (fun _ => .connectionRefused "boom")
    "list_files" (Json.obj []) 0 "boom" (Or.inl rfl)

/-- Counterexample to claim C5: on a timed-out delivery, `_rpc` propagates
the raw httpx timeout exception — no 504 code is ever attached — and the
route surfaces HTTP 500. -/
theorem C5_no_504_counterexample :
    _rpc (fun _ => .timeout "Request timed out") "list_files" (Json.obj [])
      = .error (.timeoutError "Request timed out") ∧
    PyError.bridgeCode (.timeoutError "Request timed out") = none ∧
    list_files_route (fun _ => .timeout "Request timed out")
      = .httpException 500 "Request timed out" :=
  ⟨rfl, rfl, rfl⟩

/-- Claim C5 as amended: when the delivery step times out, `_rpc` fails
with the propagated timeout exception, carrying the timeout message but no
numeric code (in particular not 504); the timeout bound itself is the HTTP
client library's default, not configured by this code. -/
theorem C5_timeout_amended (deliver : Json → DeliveryOutcome)
    (method : String) (params : Json) (m : String)
    (hd : deliver (rpcPayload method params) = .timeout m) :
    _rpc deliver method params = .error (.timeoutError m) ∧
    (PyError.timeoutError m).bridgeCode = none := by
  exact ⟨by simp [_rpc, hd, interpretOutcome], rfl⟩

/-- Witness for the amended C5: a concrete timed-out delivery. -/
theorem C5_timeout_amended_witness :
    _rpc (fun _ => .timeout "timed out") "list_files" (Json.obj [])
      = .error (.timeoutError "timed out") ∧
    (PyError.timeoutError "timed out").bridgeCode = none :=
  C5_timeout_amended (fun _ => .timeout "timed out") "list_files" (Json.obj [])
    "timed out" rfl

/-- Claim C6: against the spec-modelled `get_file_content` dispatcher,
calling the bridge with empty params fails with the structured
parameter-validation error — a `ValueError` whose payload carries code
400 — and the dispatcher records that no repository call was attempted. -/
theorem C6_missing_filename_400 (repo : String → Json) :
    _rpc (fun p => (dispatch_get_file_content repo p).1)
        "get_file_content" (Json.obj [])
      = .error (.valueError (Json.obj [("code", .num 400),
          ("message", .str "filename parameter is required")])) ∧
    (dispatch_get_file_content repo
        (rpcPayload "get_file_content" (Json.obj []))).2 = false ∧
    PyError.bridgeCode (.valueError (Json.obj [("code", .num 400),
        ("message", .str "filename parameter is required")])) = some 400 :=
  ⟨rfl, rfl, rfl⟩

end SharePointMCP
